import Mathlib

/-!
# A shallow embedding of `goplc.go` (package `goplc`)

The file embeds the session engine of the EtherNet/IP originator: the `plc`
record, `Connect`/`connected`/`registerSession`, `readControllerProps`,
`disconnected`, the `read` loop run on a script of read results,
`encapsulationHandle`, `sendRRDataHandle`, `getAttributeAllHandle` and
`NewOriginator`.  The `write` loop, which only drains the outbound channel into
the socket, is not embedded.

Conventions of the embedding.

* A Go byte is `Fin 256`; a `[]byte` and a Go `string` are both `List Byte`
  (a Go string is a byte sequence, and `string(b)` keeps the bytes of `b`).
* Unsigned machine integers wider than a byte are `Nat`.  The only machine
  arithmetic in `goplc.go` is the `uint8` subtraction `mr.Service - 0x80`, which
  is taken modulo 256.
* Everything the program does to the outside world (callbacks, the socket,
  the outbound channel, the goroutines it starts) is appended, in program
  order, to the ghost field `plc.events`.  Log output (`config.Println`,
  `config.Printf`) is not recorded.
* A Go run-time panic is the constructor `Outcome.panic`; it carries the state
  at the moment of the panic.
* The code of the packages `enip/...` imported by `goplc.go` is not embedded.
  Their functions and constants are the fields of `Env`, so every theorem
  stated for an arbitrary `Env` holds whatever those packages do.  The two
  parsers are taken to return a value (not nil, no panic) on every input.
-/

namespace Goplc

/-- One Go `byte` / `uint8`. -/
abbrev Byte := Fin 256

/-- The text of `errors.New("UnRegisterSession")`, as bytes. -/
def UnRegisterSessionText : List Byte :=
  [0x55, 0x6E, 0x52, 0x65, 0x67, 0x69, 0x73, 0x74, 0x65, 0x72,
   0x53, 0x65, 0x73, 0x73, 0x69, 0x6F, 0x6E]

/-- Go `error` values that reach `disconnected`: `io.EOF`, an error made by
`errors.New` (known by its text), or any other error of the transport or of
the frame decoder (known by an identifier). -/
inductive GoError where
  | EOF
  | errorsNew (text : List Byte)
  | other (id : Nat)
deriving DecidableEq, Repr

/-- The `controller` struct (lines 20-30).  `etype.XUINT` is taken to be a
16-bit unsigned integer, `Name` is a Go string kept as bytes and `Version` is
the text produced by `fmt.Sprintf`. -/
structure controller where
  VendorID : Nat
  DeviceType : Nat
  ProductCode : Nat
  Major : Byte
  Minor : Byte
  Status : Nat
  SerialNumber : Nat
  Version : String
  Name : List Byte
deriving DecidableEq, Repr

/-- The fields of `Config` that `goplc.go` reads.  A callback is recorded by
whether it is non-nil; `ReconnectionInterval` is a `time.Duration`. -/
structure Config where
  OnConnected : Bool
  OnDisconnected : Bool
  OnRegistered : Bool
  OnAttribute : Bool
  ReconnectionInterval : Int
  ENIP_PORT : Nat
deriving DecidableEq, Repr

/-- What the program does to its surroundings, in program order. -/
inductive Event where
  | OnConnected
  | OnDisconnected (err : GoError)
  | OnRegistered
  | OnAttribute
  | DialTCP
  | Close (conn : Nat)
  | Sleep (d : Int)
  | EBFClean
  | goRead
  | goWrite
  | send (msg : List Byte)
deriving DecidableEq, Repr

/-- The `plc` struct (lines 32-43).  `tcpConn` is `none` for a nil pointer and
`some c` for the connection numbered `c`; `sender` and the side effects are the
ghost field `events`; `request` is a stateless builder and has no field. -/
structure plc where
  tcpAddr : Nat
  tcpConn : Option Nat
  config : Config
  context : Nat
  session : Nat
  slot : Byte
  path : List Byte
  Controller : controller
  events : List Event
deriving DecidableEq, Repr

/-- The parsed message-router response (`messageRouter.Parse`). -/
structure MessageRouter where
  Service : Byte
  GeneralStatus : Byte
  AdditionalStatus : List Byte
  ResponseData : List Byte
deriving DecidableEq, Repr

/-- One item of the common packet format. -/
structure CPFItem where
  TypeID : Nat
  Length : Nat
  Data : List Byte
deriving DecidableEq, Repr

/-- The parsed container (`cip.CPF`): its ordered item list. -/
structure CPF where
  Items : List CPFItem
deriving DecidableEq, Repr

/-- A decoded encapsulation frame (`encapsulation.Encapsulation`). -/
structure Encapsulation where
  Command : Nat
  Length : Nat
  SessionHandle : Nat
  Status : Nat
  Context : Nat
  Options : Nat
  Data : List Byte
deriving DecidableEq, Repr

/-- The constants and functions of the packages `enip/...` that `goplc.go`
uses.  `ReadByteAborts` says what `lib.ReadByte`
does when the reader runs short: `true` when it panics, `false` when it
returns and leaves its target as it was. -/
structure Env where
  CommandRegisterSession : Nat
  CommandUnRegisterSession : Nat
  CommandSendRRData : Nat
  CommandSendUnitData : Nat
  ServiceGetAttributeAll : Byte
  LogicalTypeClassID : Nat
  LogicalTypeInstanceID : Nat
  LogicalBuild : Nat → Nat → Bool → List Byte
  PortBuild : Nat → List Byte → List Byte
  messageRouterBuild : Byte → List (List Byte) → List Byte → List Byte
  messageRouterParse : List Byte → MessageRouter
  unconnectedSendBuild : List Byte → List Byte → Nat → List Byte
  cipParser : List Byte → CPF
  RegisterSession : Nat → List Byte
  SendRRData : Nat → Nat → Nat → List Byte → List Byte
  ReadByteAborts : Bool
  defaultConfig : Config

/-- Why a goroutine panicked. -/
inductive Fault where
  | nilPointer
  | indexOutOfRange
  | readByte
  | panicErr (err : GoError)
deriving DecidableEq, Repr

/-- The result of running a method of `plc`: it returned, or it panicked. -/
inductive Outcome where
  | ok (p : plc)
  | panic (f : Fault) (p : plc)
deriving DecidableEq, Repr

/-- The state in which the method ended. -/
def Outcome.state : Outcome → plc
  | .ok p => p
  | .panic _ p => p

/-- Whether the method returned normally. -/
def Outcome.returned : Outcome → Bool
  | .ok _ => true
  | .panic _ _ => false

/-- What the network answers when `Connect` dials: `net.DialTCP` fails,
`SetKeepAlive` fails, or both succeed with a new connection. -/
inductive DialResult where
  | dialErr (err : GoError)
  | keepAliveErr (err : GoError)
  | conn (c : Nat)
deriving DecidableEq, Repr

/-! ## Little-endian decoding and the identity decoder -/

/-- The little-endian value of a byte sequence (`binary.LittleEndian`). -/
def littleEndian : List Byte → Nat
  | [] => 0
  | b :: bs => b.val + 256 * littleEndian bs

/-- The locals and the part of the state that `getAttributeAllHandle` works on:
the unread bytes of `dataReader`, `p.Controller`, `nameLen`, `nameBuf`, and
whether a `lib.ReadByte` has panicked. -/
structure Decode where
  rest : List Byte
  c : controller
  nameLen : Byte
  nameBuf : List Byte
  panicked : Bool
deriving DecidableEq, Repr

/-- Modelled from the spec: `lib.ReadByte` of the package `enip/lib`, the byte
codec that decodes a fixed-width field in little-endian order.  It reads `n`
bytes from the reader and hands them to `store`, which writes the target.  When
fewer than `n` bytes are left the reader is drained and the target is left as it
was (as `binary.Read` does); the call then panics or returns, as `aborts` says.
A read of zero bytes always succeeds. -/
def ReadByte (aborts : Bool) (n : Nat) (store : List Byte → Decode → Decode)
    (s : Decode) : Decode :=
  if s.panicked then s
  else if n ≤ s.rest.length then store (s.rest.take n) { s with rest := s.rest.drop n }
  else if aborts then { s with rest := [], panicked := true }
  else { s with rest := [] }

/-- The nine reads of `getAttributeAllHandle` (lines 175-186), in order. -/
def decodeIdentity (aborts : Bool) (c : controller) (data : List Byte) : Decode :=
  let s0 : Decode := { rest := data, c := c, nameLen := 0, nameBuf := [], panicked := false }
  let s1 := ReadByte aborts 2 (fun b s => { s with c := { s.c with VendorID := littleEndian b } }) s0
  let s2 := ReadByte aborts 2 (fun b s => { s with c := { s.c with DeviceType := littleEndian b } }) s1
  let s3 := ReadByte aborts 2 (fun b s => { s with c := { s.c with ProductCode := littleEndian b } }) s2
  let s4 := ReadByte aborts 1 (fun b s => { s with c := { s.c with Major := b.headD 0 } }) s3
  let s5 := ReadByte aborts 1 (fun b s => { s with c := { s.c with Minor := b.headD 0 } }) s4
  let s6 := ReadByte aborts 2 (fun b s => { s with c := { s.c with Status := littleEndian b } }) s5
  let s7 := ReadByte aborts 4 (fun b s => { s with c := { s.c with SerialNumber := littleEndian b } }) s6
  let s8 := ReadByte aborts 1 (fun b s => { s with nameLen := b.headD 0 }) s7
  let s9 : Decode := if s8.panicked then s8 else { s8 with nameBuf := List.replicate s8.nameLen.val 0 }
  ReadByte aborts s9.nameLen.val (fun b s => { s with nameBuf := b }) s9

/-- The text of `fmt.Sprintf("%d.%d", major, minor)`. -/
def versionText (major minor : Byte) : String :=
  toString major.val ++ "." ++ toString minor.val

/-- The method `getAttributeAllHandle` (lines 174-194). -/
def getAttributeAllHandle (env : Env) (p : plc) (data : List Byte) : Outcome :=
  let s := decodeIdentity env.ReadByteAborts p.Controller data
  if s.panicked then .panic .readByte { p with Controller := s.c }
  else
    let c1 : controller := { s.c with Name := s.nameBuf }
    let c2 : controller := { c1 with Version := versionText c1.Major c1.Minor }
    let p1 : plc := { p with Controller := c2 }
    if p1.config.OnAttribute then .ok { p1 with events := p1.events ++ [Event.OnAttribute] }
    else .ok p1

/-! ## The session engine -/

/-- The method `registerSession` (lines 76-79): one message on `sender`. -/
def registerSession (env : Env) (p : plc) : plc :=
  { p with events := p.events ++ [Event.send (env.RegisterSession p.context)] }

/-- The method `connected` (lines 62-74). -/
def connected (env : Env) (p : plc) : plc :=
  let p1 : plc := if p.config.OnConnected then { p with events := p.events ++ [Event.OnConnected] } else p
  let p2 : plc := { p1 with events := p1.events ++ [Event.EBFClean, Event.goRead, Event.goWrite] }
  registerSession env p2

/-- The method `Connect` (lines 45-60), given what the network answers.  The
first component is the returned error (`none` for nil). -/
def Connect (env : Env) (p : plc) (net : DialResult) : Option GoError × plc :=
  let p0 : plc := { p with events := p.events ++ [Event.DialTCP] }
  match net with
  | .dialErr e => (some e, p0)
  | .keepAliveErr e => (some e, p0)
  | .conn c => (none, connected env { p0 with tcpConn := some c })

/-- The method `readControllerProps` (lines 81-88). -/
def readControllerProps (env : Env) (p : plc) : plc :=
  let mr := env.messageRouterBuild env.ServiceGetAttributeAll
    [env.LogicalBuild env.LogicalTypeClassID 0x01 true,
     env.LogicalBuild env.LogicalTypeInstanceID 0x01 true] []
  let ucmm := env.unconnectedSendBuild mr p.path 2000
  { p with events := p.events ++ [Event.send (env.SendRRData p.context p.session 10 ucmm)] }

/-- The method `disconnected` (lines 90-114), given what the network answers
if it dials again.  `p.tcpConn.Close()` on a nil `*net.TCPConn` is a nil
dereference; `panic(err)` after a failed `Connect` is `Fault.panicErr`. -/
def disconnected (env : Env) (p : plc) (err : GoError) (net : DialResult) : Outcome :=
  let p1 : plc :=
    if p.config.OnDisconnected then { p with events := p.events ++ [Event.OnDisconnected err] } else p
  match p1.tcpConn with
  | none => .panic .nilPointer p1
  | some c =>
    let p2 : plc := { p1 with events := p1.events ++ [Event.Close c], tcpConn := none }
    if p2.config.ReconnectionInterval ≠ 0 then
      let p3 : plc := { p2 with events := p2.events ++ [Event.Sleep p2.config.ReconnectionInterval] }
      match Connect env p3 net with
      | (some e, p4) => .panic (.panicErr e) p4
      | (none, p4) => .ok p4
    else .ok p2

/-- The method `sendRRDataHandle` (lines 161-172).  `cpf.Items[1]` panics when
the slice has fewer than two items; `mr.Service - 0x80` is `uint8` arithmetic. -/
def sendRRDataHandle (env : Env) (p : plc) (cpf : CPF) (net : DialResult) : Outcome :=
  match cpf.Items[1]? with
  | none => .panic .indexOutOfRange p
  | some item =>
    let mr := env.messageRouterParse item.Data
    if mr.GeneralStatus ≠ 0 then
      disconnected env p (GoError.errorsNew mr.AdditionalStatus) net
    else if (mr.Service.val + 256 - 0x80) % 256 = env.ServiceGetAttributeAll.val then
      getAttributeAllHandle env p mr.ResponseData
    else .ok p

/-- The method `encapsulationHandle` (lines 142-159): a `switch` on the
command with no default branch. -/
def encapsulationHandle (env : Env) (p : plc) (enc : Encapsulation) (net : DialResult) : Outcome :=
  if enc.Command = env.CommandRegisterSession then
    let p1 : plc := { p with session := enc.SessionHandle }
    let p2 : plc := if p1.config.OnRegistered then { p1 with events := p1.events ++ [Event.OnRegistered] } else p1
    .ok (readControllerProps env p2)
  else if enc.Command = env.CommandUnRegisterSession then
    disconnected env p (GoError.errorsNew UnRegisterSessionText) net
  else if enc.Command = env.CommandSendRRData then
    sendRRDataHandle env p (env.cipParser enc.Data) net
  else if enc.Command = env.CommandSendUnitData then .ok p
  else .ok p

/-- What one `p.tcpConn.Read` followed by `EBF.Read` yields: a transport
error, or a chunk in which the frame decoder finds the given frames (handing
each to the handler) and then returns its own error or nil. -/
inductive ReadResult where
  | err (e : GoError)
  | chunk (frames : List Encapsulation) (ebfErr : Option GoError)
deriving DecidableEq, Repr

/-- The frame decoder calling `encapsulationHandle` on each frame in turn. -/
def handleFrames (env : Env) (net : DialResult) : plc → List Encapsulation → Outcome
  | p, [] => .ok p
  | p, f :: fs =>
    match encapsulationHandle env p f net with
    | .ok q => handleFrames env net q fs
    | .panic e q => .panic e q

/-- The method `read` (lines 125-140) run on a script of read results; it
returns when the loop breaks or the script is used up. -/
def read (env : Env) (net : DialResult) : plc → List ReadResult → Outcome
  | p, [] => .ok p
  | p, rd :: rds =>
    match p.tcpConn with
    | none => .panic .nilPointer p
    | some _ =>
      match rd with
      | .err e => disconnected env p e net
      | .chunk frames ebfErr =>
        match handleFrames env net p frames with
        | .panic e q => .panic e q
        | .ok q =>
          match ebfErr with
          | some e => disconnected env q e net
          | none => read env net q rds

/-- The zero value `&controller{}`. -/
def controller.zero : controller :=
  { VendorID := 0, DeviceType := 0, ProductCode := 0, Major := 0, Minor := 0,
    Status := 0, SerialNumber := 0, Version := "", Name := [] }

/-- The function `NewOriginator` (lines 196-221), given the result of
`net.ResolveTCPAddr` and the value drawn by `rand.Uint64`. -/
def NewOriginator (env : Env) (resolve : Except GoError Nat) (rnd : Nat) (slot : Byte)
    (cfg : Option Config) : Except GoError plc :=
  let config := match cfg with
    | some c => c
    | none => env.defaultConfig
  match resolve with
  | .error e => .error e
  | .ok tcp =>
    .ok { tcpAddr := tcp, tcpConn := none, config := config, context := rnd % 2 ^ 64,
          session := 0, slot := slot, path := env.PortBuild 1 [slot],
          Controller := controller.zero, events := [] }

/-! ## One concrete choice of the absent packages

`sampleEnv` fixes the fields of `Env` so that the definitions above can be run
on concrete inputs.  The theorems below hold for every `Env`; `sampleEnv` only
supplies the inputs at which they are instantiated. -/

/-- The `n` low bytes of `v`, least significant first. -/
def leBytes : Nat → Nat → List Byte
  | 0, _ => []
  | n + 1, v => Fin.ofNat (v % 256) :: leBytes n (v / 256)

/-- Modelled from the spec: the fixed encapsulation header of section 4.3
(command, payload length, session handle, status, context, options; all
little-endian) followed by the payload. -/
def sampleHeader (command session context : Nat) (payload : List Byte) : List Byte :=
  leBytes 2 command ++ leBytes 2 payload.length ++ leBytes 4 session ++ leBytes 4 0 ++
    leBytes 8 context ++ leBytes 4 0 ++ payload

/-- Modelled from the spec: `messageRouter.Parse` of section 4.5: service code,
a reserved byte, general status, the count of extended-status words, those
words, and the remaining bytes as response data. -/
def sampleParse : List Byte → MessageRouter
  | service :: _ :: status :: count :: tail =>
    { Service := service, GeneralStatus := status,
      AdditionalStatus := tail.take (2 * count.val), ResponseData := tail.drop (2 * count.val) }
  | _ => { Service := 0, GeneralStatus := 0, AdditionalStatus := [], ResponseData := [] }

/-- Modelled from the spec: the item loop of `cip.Parser` of section 4.4: for
each of `count` items a type id (2 bytes), a data length (2 bytes) and the
data; the loop stops at an item whose header or data is cut short. -/
def sampleItems : Nat → List Byte → List CPFItem
  | 0, _ => []
  | count + 1, t0 :: t1 :: l0 :: l1 :: tail =>
    let len := littleEndian [l0, l1]
    if len ≤ tail.length then
      { TypeID := littleEndian [t0, t1], Length := len, Data := tail.take len } ::
        sampleItems count (tail.drop len)
    else []
  | _ + 1, _ => []

/-- Modelled from the spec: `cip.Parser` of section 4.4: a 2-byte item count,
then that many items. -/
def sampleParser : List Byte → CPF
  | c0 :: c1 :: tail => { Items := sampleItems (littleEndian [c0, c1]) tail }
  | _ => { Items := [] }

/-- Modelled from the spec: `messageRouter.Build` of section 4.5: service code,
path length in 16-bit words, the path segments, the data. -/
def sampleBuild (service : Byte) (path : List (List Byte)) (data : List Byte) : List Byte :=
  service :: Fin.ofNat (path.flatten.length / 2) :: (path.flatten ++ data)

/-- Modelled from the spec: `unconnectedSend.Build` of section 4.5: an outer
request of the unconnected-send service (0x52) with an empty target path whose
data is a time-tick byte, a tick count, the inner length (2 bytes), the inner
message, the route-path length in words, a pad byte and the route path.  The
timeout is carried as ticks of 8 time-units. -/
def sampleUnconnectedSend (mr path : List Byte) (timeout : Nat) : List Byte :=
  sampleBuild 0x52 []
    ([3, Fin.ofNat (timeout / 8)] ++ leBytes 2 mr.length ++ mr ++
      [Fin.ofNat (path.length / 2), 0] ++ path)

/-- One concrete `Env`: the EtherNet/IP command codes, the CIP service code of
Get-Attribute-All, 8-bit logical and port segments, and the layouts above. -/
def sampleEnv : Env :=
  { CommandRegisterSession := 0x65
    CommandUnRegisterSession := 0x66
    CommandSendRRData := 0x6F
    CommandSendUnitData := 0x70
    ServiceGetAttributeAll := 0x01
    LogicalTypeClassID := 0
    LogicalTypeInstanceID := 1
    LogicalBuild := fun t address _ => [Fin.ofNat (0x20 + 4 * t), Fin.ofNat address]
    PortBuild := fun port link => Fin.ofNat port :: link
    messageRouterBuild := sampleBuild
    messageRouterParse := sampleParse
    unconnectedSendBuild := sampleUnconnectedSend
    cipParser := sampleParser
    RegisterSession := fun context => sampleHeader 0x65 0 context [1, 0, 0, 0]
    SendRRData := fun context session timeout payload =>
      sampleHeader 0x6F session context (leBytes 4 0 ++ leBytes 2 timeout ++ payload)
    ReadByteAborts := false
    defaultConfig :=
      { OnConnected := false, OnDisconnected := false, OnRegistered := false,
        OnAttribute := false, ReconnectionInterval := 0, ENIP_PORT := 44818 } }

/-- A configuration with all four callbacks set and reconnection disabled. -/
def sampleConfig : Config :=
  { OnConnected := true, OnDisconnected := true, OnRegistered := true,
    OnAttribute := true, ReconnectionInterval := 0, ENIP_PORT := 44818 }

/-- An engine on slot 2 with an open socket, session handle 0x1234 and a
zero-valued controller record. -/
def samplePlc : plc :=
  { tcpAddr := 1, tcpConn := some 7, config := sampleConfig, context := 99,
    session := 0x1234, slot := 2, path := [1, 2], Controller := controller.zero,
    events := [] }

/-- An identity payload: vendor 1, device type 14, product code 55, revision
20.11, status 0x3060, serial number 0x12345678, name "ABCDE". -/
def sampleIdentity : List Byte :=
  [0x01, 0x00, 0x0E, 0x00, 0x37, 0x00, 20, 11, 0x60, 0x30, 0x78, 0x56, 0x34, 0x12,
   5, 0x41, 0x42, 0x43, 0x44, 0x45]

/-- A container whose data item is a router response with service 0x81,
general status 5 and one extended-status word `AA BB`. -/
def sampleRejected : CPF :=
  { Items := [{ TypeID := 0, Length := 0, Data := [] },
              { TypeID := 0xB2, Length := 6, Data := [0x81, 0, 5, 1, 0xAA, 0xBB] }] }

/-- The same response with general status 8. -/
def sampleRejectedOther : CPF :=
  { Items := [{ TypeID := 0, Length := 0, Data := [] },
              { TypeID := 0xB2, Length := 6, Data := [0x81, 0, 8, 1, 0xAA, 0xBB] }] }

/-- A container whose data item is a router response with service 0x8E
(the reply to Get-Attribute-Single), general status 0 and two data bytes. -/
def sampleOtherService : CPF :=
  { Items := [{ TypeID := 0, Length := 0, Data := [] },
              { TypeID := 0xB2, Length := 6, Data := [0x8E, 0, 0, 0, 1, 2] }] }

/-- A frame with the given command, session handle and payload. -/
def sampleFrame (command session : Nat) (data : List Byte) : Encapsulation :=
  { Command := command, Length := data.length, SessionHandle := session, Status := 0,
    Context := 99, Options := 0, Data := data }

/-- The reads so far have consumed exactly the first `k` bytes of `d`, or one
of them has panicked. -/
def Decode.reached (d : List Byte) (k : Nat) (s : Decode) : Prop :=
  s.panicked = true ∨ (s.panicked = false ∧ s.rest = d.drop k ∧ k ≤ d.length)

instance (d : List Byte) (k : Nat) (s : Decode) : Decidable (Decode.reached d k s) := by
  unfold Decode.reached
  infer_instance

/-- What no method of `plc` other than `NewOriginator` writes. -/
def plc.sameSetup (p q : plc) : Prop :=
  q.path = p.path ∧ q.slot = p.slot ∧ q.config = p.config ∧ q.context = p.context

instance (p q : plc) : Decidable (p.sameSetup q) := by
  unfold plc.sameSetup
  infer_instance

/-! ## Facts about the little-endian reader -/

theorem ReadByte_two (aborts : Bool) (store : List Byte → Decode → Decode)
    (x y : Byte) (r : List Byte) (c : controller) (nl : Byte) (nb : List Byte) :
    ReadByte aborts 2 store ⟨x :: y :: r, c, nl, nb, false⟩ = store [x, y] ⟨r, c, nl, nb, false⟩ := by
  simp [ReadByte]

theorem ReadByte_one (aborts : Bool) (store : List Byte → Decode → Decode)
    (x : Byte) (r : List Byte) (c : controller) (nl : Byte) (nb : List Byte) :
    ReadByte aborts 1 store ⟨x :: r, c, nl, nb, false⟩ = store [x] ⟨r, c, nl, nb, false⟩ := by
  simp [ReadByte]

theorem ReadByte_four (aborts : Bool) (store : List Byte → Decode → Decode)
    (x y z w : Byte) (r : List Byte) (c : controller) (nl : Byte) (nb : List Byte) :
    ReadByte aborts 4 store ⟨x :: y :: z :: w :: r, c, nl, nb, false⟩ =
      store [x, y, z, w] ⟨r, c, nl, nb, false⟩ := by
  simp [ReadByte]

theorem ReadByte_tail (aborts : Bool) (store : List Byte → Decode → Decode) (n : Nat)
    (r : List Byte) (c : controller) (nl : Byte) (nb : List Byte) (h : n ≤ r.length) :
    ReadByte aborts n store ⟨r, c, nl, nb, false⟩ = store (r.take n) ⟨r.drop n, c, nl, nb, false⟩ := by
  simp [ReadByte, h]

/-- On fifteen header bytes followed by at least `b14` bytes the nine reads
all succeed, whatever `lib.ReadByte` does on a short read. -/
theorem decodeIdentity_enough (aborts : Bool) (c : controller)
    (b0 b1 b2 b3 b4 b5 b6 b7 b8 b9 b10 b11 b12 b13 b14 : Byte) (rest : List Byte)
    (hr : b14.val ≤ rest.length) :
    decodeIdentity aborts c
      (b0 :: b1 :: b2 :: b3 :: b4 :: b5 :: b6 :: b7 :: b8 :: b9 :: b10 :: b11 :: b12 :: b13 :: b14 :: rest) =
      { rest := rest.drop b14.val
        c := { VendorID := b0.val + 256 * b1.val
               DeviceType := b2.val + 256 * b3.val
               ProductCode := b4.val + 256 * b5.val
               Major := b6
               Minor := b7
               Status := b8.val + 256 * b9.val
               SerialNumber := b10.val + 256 * b11.val + 65536 * b12.val + 16777216 * b13.val
               Version := c.Version
               Name := c.Name }
        nameLen := b14
        nameBuf := rest.take b14.val
        panicked := false } := by
  unfold decodeIdentity
  dsimp only
  rw [ReadByte_two, ReadByte_two, ReadByte_two, ReadByte_one, ReadByte_one, ReadByte_two,
    ReadByte_four, ReadByte_one]
  dsimp only [List.headD]
  rw [if_neg (by simp), ReadByte_tail _ _ _ _ _ _ _ hr]
  simp [littleEndian]
  omega


/-! ## Short identity payloads

What `getAttributeAllHandle` does with a payload that is shorter than its
fields require is decided by `lib.ReadByte`: if that helper returns on a short
read the handler runs to its end, if it panics the handler panics with it. -/

theorem ReadByte_skip_panicked (n : Nat) (store : List Byte → Decode → Decode) (s : Decode)
    (hs : s.panicked = false)
    (hstore : ∀ b t, t.panicked = false → (store b t).panicked = false) :
    (ReadByte false n store s).panicked = false := by
  unfold ReadByte
  rw [if_neg (by simp [hs])]
  by_cases hn : n ≤ s.rest.length
  · rw [if_pos hn]
    exact hstore _ _ hs
  · rw [if_neg hn, if_neg (by simp)]
    exact hs

theorem allocName_panicked (t : Decode) (nb : List Byte) :
    (if t.panicked = true then t else { t with nameBuf := nb }).panicked = t.panicked := by
  split <;> rfl

/-- If `lib.ReadByte` returns on a short read, no read of the decoder panics. -/
theorem decodeIdentity_skip (c : controller) (d : List Byte) :
    (decodeIdentity false c d).panicked = false := by
  unfold decodeIdentity
  dsimp only
  apply ReadByte_skip_panicked
  · rw [allocName_panicked]
    repeat (first | rfl | apply ReadByte_skip_panicked | (intro b t ht; exact ht))
  · intro b t ht
    exact ht

theorem ReadByte_abort_reached (d : List Byte) (k n : Nat)
    (store : List Byte → Decode → Decode) (s : Decode)
    (hs : Decode.reached d k s)
    (hstore : ∀ b t, (store b t).panicked = t.panicked ∧ (store b t).rest = t.rest) :
    Decode.reached d (k + n) (ReadByte true n store s) := by
  unfold ReadByte
  rcases hs with hp | ⟨hp, hr, hk⟩
  · rw [if_pos hp]
    exact Or.inl hp
  · rw [if_neg (by simp [hp])]
    by_cases hn : n ≤ s.rest.length
    · rw [if_pos hn]
      right
      have hlen : n ≤ d.length - k := by
        rw [hr, List.length_drop] at hn
        exact hn
      refine ⟨(hstore _ _).1.trans hp, ?_, by omega⟩
      rw [(hstore _ _).2]
      show List.drop n s.rest = List.drop (k + n) d
      rw [hr, List.drop_drop]
    · rw [if_neg hn, if_pos rfl]
      exact Or.inl rfl

theorem ReadByte_abort_fails (store : List Byte → Decode → Decode) (n : Nat)
    (r : List Byte) (c : controller) (nl : Byte) (nb : List Byte) (h : ¬ n ≤ r.length) :
    (ReadByte true n store ⟨r, c, nl, nb, false⟩).panicked = true := by
  simp [ReadByte, h]

/-- If `lib.ReadByte` panics on a short read, the decoder panics on every
payload shorter than `15 + d[14]` bytes. -/
theorem decodeIdentity_abort_short (c : controller) (d : List Byte)
    (h : d.length < 15 + (d.getD 14 0).val) :
    (decodeIdentity true c d).panicked = true := by
  unfold decodeIdentity
  dsimp only
  generalize hs7 : ReadByte true 4 _ _ = s7
  have h7 : Decode.reached d 14 s7 := by
    rw [← hs7]
    have h0 : Decode.reached d 0
        { rest := d, c := c, nameLen := 0, nameBuf := [], panicked := false } :=
      Or.inr ⟨rfl, rfl, Nat.zero_le _⟩
    exact ReadByte_abort_reached d 10 4 _ _
      (ReadByte_abort_reached d 8 2 _ _
        (ReadByte_abort_reached d 7 1 _ _
          (ReadByte_abort_reached d 6 1 _ _
            (ReadByte_abort_reached d 4 2 _ _
              (ReadByte_abort_reached d 2 2 _ _
                (ReadByte_abort_reached d 0 2 _ _ h0 (fun _ _ => ⟨rfl, rfl⟩))
                (fun _ _ => ⟨rfl, rfl⟩))
              (fun _ _ => ⟨rfl, rfl⟩))
            (fun _ _ => ⟨rfl, rfl⟩))
          (fun _ _ => ⟨rfl, rfl⟩))
        (fun _ _ => ⟨rfl, rfl⟩))
      (fun _ _ => ⟨rfl, rfl⟩)
  rcases h7 with hp | ⟨hp, hr, hk⟩
  · simp [ReadByte, hp]
  · by_cases h1 : 1 ≤ s7.rest.length
    · have hlen : 14 < d.length := by
        rw [hr, List.length_drop] at h1
        omega
      have hd : d.drop 14 = d[14] :: d.drop 15 := List.drop_eq_getElem_cons hlen
      have hg : d.getD 14 0 = d[14] := by
        simp [List.getD, List.getElem?_eq_getElem hlen]
      have hshort : ¬ (d[14]).val ≤ (d.drop 15).length := by
        rw [List.length_drop]
        rw [hg] at h
        omega
      clear hs7
      obtain ⟨rest7, c7, nl7, nb7, pk7⟩ := s7
      simp only at hp hr
      subst hp hr
      rw [hd, ReadByte_one]
      dsimp only [List.headD]
      rw [if_neg (by simp)]
      exact ReadByte_abort_fails _ _ _ _ _ _ hshort
    · simp [ReadByte, hp, h1]

/-- On any payload, if `lib.ReadByte` returns on a short read then
`getAttributeAllHandle` returns normally and calls the on-attribute callback
when it is set. -/
theorem getAttributeAllHandle_skip (env : Env) (p : plc) (d : List Byte)
    (hskip : env.ReadByteAborts = false) :
    (getAttributeAllHandle env p d).returned = true ∧
    (getAttributeAllHandle env p d).state.events =
      p.events ++ (if p.config.OnAttribute then [Event.OnAttribute] else []) := by
  unfold getAttributeAllHandle
  rw [hskip]
  by_cases hcb : p.config.OnAttribute = true <;>
    simp [decodeIdentity_skip, hcb, Outcome.returned, Outcome.state]

/-- On a payload shorter than `15 + d[14]` bytes, if `lib.ReadByte` panics on a
short read then `getAttributeAllHandle` panics and no callback is called. -/
theorem getAttributeAllHandle_abort_short (env : Env) (p : plc) (d : List Byte)
    (habort : env.ReadByteAborts = true) (h : d.length < 15 + (d.getD 14 0).val) :
    (getAttributeAllHandle env p d).returned = false ∧
    (getAttributeAllHandle env p d).state.events = p.events := by
  unfold getAttributeAllHandle
  rw [habort]
  simp [decodeIdentity_abort_short _ _ h, Outcome.returned, Outcome.state]

/-! ## Facts about `disconnected` and the handlers -/

/-- With a socket open and reconnection disabled `disconnected` returns. -/
theorem disconnected_open_zero (env : Env) (p : plc) (err : GoError) (net : DialResult) (c : Nat)
    (hconn : p.tcpConn = some c) (hzero : p.config.ReconnectionInterval = 0) :
    disconnected env p err net =
      .ok { p with
        tcpConn := none
        events := p.events ++
          (if p.config.OnDisconnected then [Event.OnDisconnected err] else []) ++ [Event.Close c] } := by
  by_cases hcb : p.config.OnDisconnected = true <;>
    simp [disconnected, hconn, hzero, hcb]

/-- With a socket open `disconnected` calls the callback (when set), closes
the socket and then dials exactly when the interval is non-zero; it never
touches the controller record or the session handle. -/
theorem disconnected_open_events (env : Env) (p : plc) (err : GoError) (net : DialResult) (c : Nat)
    (hconn : p.tcpConn = some c) :
    ∃ more, (disconnected env p err net).state.events =
        p.events ++ (if p.config.OnDisconnected then [Event.OnDisconnected err] else []) ++
          [Event.Close c] ++ more ∧
      Event.OnAttribute ∉ more ∧
      more.count Event.DialTCP = (if p.config.ReconnectionInterval = 0 then 0 else 1) ∧
      (disconnected env p err net).state.Controller = p.Controller ∧
      (disconnected env p err net).state.session = p.session := by
  by_cases hcb : p.config.OnDisconnected = true <;>
  by_cases hz : p.config.ReconnectionInterval = 0 <;>
  by_cases hcc : p.config.OnConnected = true <;>
  cases net <;>
    simp [disconnected, hconn, hz, hcb, hcc, Connect, connected, registerSession, Outcome.state]

/-- A response with a non-zero general status goes to `disconnected` with the
additional-status bytes as error text. -/
theorem sendRRDataHandle_status (env : Env) (p : plc) (cpf : CPF) (item : CPFItem)
    (net : DialResult) (hitem : cpf.Items[1]? = some item)
    (hstatus : (env.messageRouterParse item.Data).GeneralStatus ≠ 0) :
    sendRRDataHandle env p cpf net =
      disconnected env p (GoError.errorsNew (env.messageRouterParse item.Data).AdditionalStatus) net := by
  simp [sendRRDataHandle, hitem, hstatus]

/-- A container with fewer than two items makes `cpf.Items[1]` panic. -/
theorem sendRRDataHandle_few_items (env : Env) (p : plc) (cpf : CPF) (net : DialResult)
    (h : cpf.Items.length < 2) :
    sendRRDataHandle env p cpf net = .panic .indexOutOfRange p := by
  have : cpf.Items[1]? = none := by
    rw [List.getElem?_eq_none_iff]
    omega
  simp [sendRRDataHandle, this]

/-- The constructor `NewOriginator` sets the route path to port 1 and the slot. -/
theorem NewOriginator_path (env : Env) (resolve : Except GoError Nat) (rnd : Nat) (slot : Byte)
    (cfg : Option Config) (p : plc) (h : NewOriginator env resolve rnd slot cfg = .ok p) :
    p.path = env.PortBuild 1 [p.slot] ∧ p.slot = slot ∧ p.session = 0 ∧ p.tcpConn = none := by
  cases resolve with
  | error e => simp [NewOriginator] at h
  | ok tcp =>
    simp only [NewOriginator, Except.ok.injEq] at h
    subst h
    simp

/-! ## The route path, the slot and the configuration never change -/

theorem getAttributeAllHandle_sameSetup (env : Env) (p : plc) (d : List Byte) :
    p.sameSetup (getAttributeAllHandle env p d).state := by
  unfold getAttributeAllHandle
  dsimp only
  split
  · exact ⟨rfl, rfl, rfl, rfl⟩
  · split <;> exact ⟨rfl, rfl, rfl, rfl⟩

theorem disconnected_sameSetup (env : Env) (p : plc) (err : GoError) (net : DialResult) :
    p.sameSetup (disconnected env p err net).state := by
  by_cases hcb : p.config.OnDisconnected = true <;>
  by_cases hz : p.config.ReconnectionInterval = 0 <;>
  by_cases hcc : p.config.OnConnected = true <;>
  cases net <;> cases hconn : p.tcpConn <;>
    simp [plc.sameSetup, disconnected, hconn, hz, hcb, hcc, Connect, connected, registerSession,
      Outcome.state]

theorem sendRRDataHandle_sameSetup (env : Env) (p : plc) (cpf : CPF) (net : DialResult) :
    p.sameSetup (sendRRDataHandle env p cpf net).state := by
  unfold sendRRDataHandle
  split
  · exact ⟨rfl, rfl, rfl, rfl⟩
  · dsimp only
    split
    · exact disconnected_sameSetup env p _ net
    · split
      · exact getAttributeAllHandle_sameSetup env p _
      · exact ⟨rfl, rfl, rfl, rfl⟩

/-- Every frame leaves the route path, the slot, the configuration and the
correlation context as `NewOriginator` set them. -/
theorem encapsulationHandle_sameSetup (env : Env) (p : plc) (enc : Encapsulation)
    (net : DialResult) :
    p.sameSetup (encapsulationHandle env p enc net).state := by
  unfold encapsulationHandle
  split
  · by_cases hcb : p.config.OnRegistered = true <;>
      simp [plc.sameSetup, readControllerProps, hcb, Outcome.state]
  · split
    · exact disconnected_sameSetup env p _ net
    · split
      · exact sendRRDataHandle_sameSetup env p _ net
      · split <;> exact ⟨rfl, rfl, rfl, rfl⟩

/-- The frames of one chunk leave the setup as it was. -/
theorem handleFrames_sameSetup (env : Env) (net : DialResult) (frames : List Encapsulation) :
    ∀ p : plc, p.sameSetup (handleFrames env net p frames).state := by
  induction frames with
  | nil => intro p; exact ⟨rfl, rfl, rfl, rfl⟩
  | cons f fs ih =>
    intro p
    have h1 := encapsulationHandle_sameSetup env p f net
    unfold handleFrames
    cases hf : encapsulationHandle env p f net with
    | ok q =>
      rw [hf] at h1
      have h2 := ih q
      simp only [Outcome.state] at h1
      simp only
      exact ⟨h2.1.trans h1.1, h2.2.1.trans h1.2.1, h2.2.2.1.trans h1.2.2.1,
        h2.2.2.2.trans h1.2.2.2⟩
    | panic e q =>
      rw [hf] at h1
      exact h1

/-! ## The claims -/

/-- C1: on a payload `d` of at least `15 + d[14]` bytes `getAttributeAllHandle`
returns normally and leaves the controller record with the little-endian values
of the fixed fields, the `d[14]` bytes after offset 15 as name and
`major.minor` in decimal as version. -/
theorem getAttributeAllHandle_decodes (env : Env) (p : plc) (d : List Byte)
    (h : 15 + (d.getD 14 0).val ≤ d.length) :
    (getAttributeAllHandle env p d).returned = true ∧
    (getAttributeAllHandle env p d).state.Controller =
      { VendorID := (d.getD 0 0).val + 256 * (d.getD 1 0).val
        DeviceType := (d.getD 2 0).val + 256 * (d.getD 3 0).val
        ProductCode := (d.getD 4 0).val + 256 * (d.getD 5 0).val
        Major := d.getD 6 0
        Minor := d.getD 7 0
        Status := (d.getD 8 0).val + 256 * (d.getD 9 0).val
        SerialNumber := (d.getD 10 0).val + 256 * (d.getD 11 0).val
          + 65536 * (d.getD 12 0).val + 16777216 * (d.getD 13 0).val
        Name := (d.drop 15).take (d.getD 14 0).val
        Version := toString (d.getD 6 0).val ++ "." ++ toString (d.getD 7 0).val } := by
  match d, h with
  | b0 :: b1 :: b2 :: b3 :: b4 :: b5 :: b6 :: b7 :: b8 :: b9 :: b10 :: b11 :: b12 :: b13 :: b14 :: rest, h =>
    have hr : b14.val ≤ rest.length := by
      simp at h
      omega
    unfold getAttributeAllHandle
    rw [decodeIdentity_enough _ _ _ _ _ _ _ _ _ _ _ _ _ _ _ _ _ _ hr]
    by_cases hc : p.config.OnAttribute = true <;>
      simp [hc, versionText, Outcome.returned, Outcome.state]

/-- C1 at the payload `sampleIdentity`. -/
theorem getAttributeAllHandle_decodes_witness :
    15 + (sampleIdentity.getD 14 0).val ≤ sampleIdentity.length ∧
    (getAttributeAllHandle sampleEnv samplePlc sampleIdentity).returned = true ∧
    (getAttributeAllHandle sampleEnv samplePlc sampleIdentity).state.Controller =
      { VendorID := 1, DeviceType := 14, ProductCode := 55, Major := 20, Minor := 11,
        Status := 0x3060, SerialNumber := 0x12345678,
        Name := [0x41, 0x42, 0x43, 0x44, 0x45], Version := "20.11" } :=
  ⟨by decide, getAttributeAllHandle_decodes sampleEnv samplePlc sampleIdentity (by decide)⟩

/-- C3: a send-RR-data response whose router envelope (item 1) has a non-zero
general status ends the session: `sendRRDataHandle` calls the on-disconnected
callback (when set), closes the open socket, never calls the on-attribute
callback and leaves the controller record as it was, whatever the service
code. -/
theorem sendRRDataHandle_status_ends_session (env : Env) (p : plc) (cpf : CPF) (item : CPFItem)
    (c : Nat) (net : DialResult)
    (hitem : cpf.Items[1]? = some item)
    (hstatus : (env.messageRouterParse item.Data).GeneralStatus ≠ 0)
    (hconn : p.tcpConn = some c) :
    (∃ more, (sendRRDataHandle env p cpf net).state.events =
        p.events ++
          (if p.config.OnDisconnected then
            [Event.OnDisconnected (GoError.errorsNew (env.messageRouterParse item.Data).AdditionalStatus)]
           else []) ++ [Event.Close c] ++ more ∧
      Event.OnAttribute ∉ more) ∧
    (sendRRDataHandle env p cpf net).state.Controller = p.Controller := by
  rw [sendRRDataHandle_status env p cpf item net hitem hstatus]
  obtain ⟨more, h1, h2, _, h4, _⟩ := disconnected_open_events env p
    (GoError.errorsNew (env.messageRouterParse item.Data).AdditionalStatus) net c hconn
  exact ⟨⟨more, h1, h2⟩, h4⟩

/-- C3 at `sampleRejected` with a reconnection that succeeds. -/
theorem sendRRDataHandle_status_ends_session_witness :
    sampleRejected.Items[1]? =
      some { TypeID := 0xB2, Length := 6, Data := [0x81, 0, 5, 1, 0xAA, 0xBB] } ∧
    (sampleEnv.messageRouterParse [0x81, 0, 5, 1, 0xAA, 0xBB]).GeneralStatus ≠ 0 ∧
    samplePlc.tcpConn = some 7 ∧
    (∃ more, (sendRRDataHandle sampleEnv samplePlc sampleRejected (DialResult.conn 8)).state.events =
        samplePlc.events ++
          (if samplePlc.config.OnDisconnected then
            [Event.OnDisconnected (GoError.errorsNew
              (sampleEnv.messageRouterParse [0x81, 0, 5, 1, 0xAA, 0xBB]).AdditionalStatus)]
           else []) ++ [Event.Close 7] ++ more ∧
      Event.OnAttribute ∉ more) ∧
    (sendRRDataHandle sampleEnv samplePlc sampleRejected (DialResult.conn 8)).state.Controller =
      samplePlc.Controller :=
  ⟨by decide, by decide, by decide,
    sendRRDataHandle_status_ends_session sampleEnv samplePlc sampleRejected
      { TypeID := 0xB2, Length := 6, Data := [0x81, 0, 5, 1, 0xAA, 0xBB] } 7 (DialResult.conn 8)
      (by decide) (by decide) (by decide)⟩

/-- C4 (as stated) fails: two responses that differ only in general status
(5 and 8) hand the on-disconnected callback the same cause. -/
theorem cause_omits_general_status_counterexample :
    (sampleEnv.messageRouterParse [0x81, 0, 5, 1, 0xAA, 0xBB]).GeneralStatus = 5 ∧
    (sampleEnv.messageRouterParse [0x81, 0, 8, 1, 0xAA, 0xBB]).GeneralStatus = 8 ∧
    (sendRRDataHandle sampleEnv samplePlc sampleRejected (DialResult.conn 8)).state.events.take 1 =
      [Event.OnDisconnected (GoError.errorsNew [0xAA, 0xBB])] ∧
    (sendRRDataHandle sampleEnv samplePlc sampleRejectedOther (DialResult.conn 8)).state.events.take 1 =
      [Event.OnDisconnected (GoError.errorsNew [0xAA, 0xBB])] ∧
    sendRRDataHandle sampleEnv samplePlc sampleRejected (DialResult.conn 8) =
      sendRRDataHandle sampleEnv samplePlc sampleRejectedOther (DialResult.conn 8) := by
  decide

/-- C4 (amended): with the on-disconnected callback set and a socket open, the
cause handed to the callback for a response with non-zero general status is
the error whose text is the extended-status bytes, verbatim; two such
responses are handled alike exactly when their extended-status bytes are
equal, whatever their general status. -/
theorem cause_is_additional_status (env : Env) (p : plc) (cpfA cpfB : CPF) (itemA itemB : CPFItem)
    (c : Nat) (net : DialResult)
    (hA : cpfA.Items[1]? = some itemA) (hB : cpfB.Items[1]? = some itemB)
    (hsA : (env.messageRouterParse itemA.Data).GeneralStatus ≠ 0)
    (hsB : (env.messageRouterParse itemB.Data).GeneralStatus ≠ 0)
    (hconn : p.tcpConn = some c) (hcb : p.config.OnDisconnected = true) :
    (∃ more, (sendRRDataHandle env p cpfA net).state.events =
      p.events ++ Event.OnDisconnected
        (GoError.errorsNew (env.messageRouterParse itemA.Data).AdditionalStatus) :: more) ∧
    ((sendRRDataHandle env p cpfA net).state.events = (sendRRDataHandle env p cpfB net).state.events ↔
      (env.messageRouterParse itemA.Data).AdditionalStatus =
        (env.messageRouterParse itemB.Data).AdditionalStatus) := by
  rw [sendRRDataHandle_status env p cpfA itemA net hA hsA,
    sendRRDataHandle_status env p cpfB itemB net hB hsB]
  obtain ⟨moreA, hEA, _⟩ := disconnected_open_events env p
    (GoError.errorsNew (env.messageRouterParse itemA.Data).AdditionalStatus) net c hconn
  obtain ⟨moreB, hEB, _⟩ := disconnected_open_events env p
    (GoError.errorsNew (env.messageRouterParse itemB.Data).AdditionalStatus) net c hconn
  simp only [hcb, if_true, List.append_assoc, List.singleton_append] at hEA hEB
  refine ⟨⟨_, hEA⟩, ?_, ?_⟩
  · intro h
    rw [hEA, hEB] at h
    have h2 := List.append_cancel_left h
    simp only [List.cons_append, List.cons.injEq, Event.OnDisconnected.injEq,
      GoError.errorsNew.injEq] at h2
    exact h2.1
  · intro h
    rw [h]

/-- The amended C4 at `sampleRejected` and `sampleRejectedOther`. -/
theorem cause_is_additional_status_witness :
    sampleRejected.Items[1]? =
      some { TypeID := 0xB2, Length := 6, Data := [0x81, 0, 5, 1, 0xAA, 0xBB] } ∧
    sampleRejectedOther.Items[1]? =
      some { TypeID := 0xB2, Length := 6, Data := [0x81, 0, 8, 1, 0xAA, 0xBB] } ∧
    (sampleEnv.messageRouterParse [0x81, 0, 5, 1, 0xAA, 0xBB]).GeneralStatus ≠ 0 ∧
    (sampleEnv.messageRouterParse [0x81, 0, 8, 1, 0xAA, 0xBB]).GeneralStatus ≠ 0 ∧
    samplePlc.tcpConn = some 7 ∧ samplePlc.config.OnDisconnected = true ∧
    (∃ more, (sendRRDataHandle sampleEnv samplePlc sampleRejected (DialResult.conn 8)).state.events =
      samplePlc.events ++ Event.OnDisconnected
        (GoError.errorsNew (sampleEnv.messageRouterParse [0x81, 0, 5, 1, 0xAA, 0xBB]).AdditionalStatus)
          :: more) ∧
    ((sendRRDataHandle sampleEnv samplePlc sampleRejected (DialResult.conn 8)).state.events =
        (sendRRDataHandle sampleEnv samplePlc sampleRejectedOther (DialResult.conn 8)).state.events ↔
      (sampleEnv.messageRouterParse [0x81, 0, 5, 1, 0xAA, 0xBB]).AdditionalStatus =
        (sampleEnv.messageRouterParse [0x81, 0, 8, 1, 0xAA, 0xBB]).AdditionalStatus) :=
  ⟨by decide, by decide, by decide, by decide, by decide, by decide,
    cause_is_additional_status sampleEnv samplePlc sampleRejected sampleRejectedOther
      { TypeID := 0xB2, Length := 6, Data := [0x81, 0, 5, 1, 0xAA, 0xBB] }
      { TypeID := 0xB2, Length := 6, Data := [0x81, 0, 8, 1, 0xAA, 0xBB] } 7 (DialResult.conn 8)
      (by decide) (by decide) (by decide) (by decide) (by decide) (by decide)⟩

/-- C5: on a register-session response carrying handle `h`, with the route
path that `NewOriginator` built (port 1, then the slot), `encapsulationHandle`
stores `h`, calls the on-registered callback once when it is set, and then
sends exactly one message: the send-RR-data request for the context and `h`
around the unconnected send (timeout 2000, that route path) of
Get-Attribute-All on class 0x01, instance 0x01. -/
theorem encapsulationHandle_registerSession (env : Env) (p : plc) (enc : Encapsulation)
    (net : DialResult)
    (hcmd : enc.Command = env.CommandRegisterSession)
    (hpath : p.path = env.PortBuild 1 [p.slot]) :
    encapsulationHandle env p enc net =
      .ok { p with
        session := enc.SessionHandle
        events := p.events ++ (if p.config.OnRegistered then [Event.OnRegistered] else []) ++
          [Event.send (env.SendRRData p.context enc.SessionHandle 10
            (env.unconnectedSendBuild
              (env.messageRouterBuild env.ServiceGetAttributeAll
                [env.LogicalBuild env.LogicalTypeClassID 0x01 true,
                 env.LogicalBuild env.LogicalTypeInstanceID 0x01 true] [])
              (env.PortBuild 1 [p.slot]) 2000))] } := by
  by_cases hcb : p.config.OnRegistered = true <;>
    simp [encapsulationHandle, hcmd, readControllerProps, hcb, hpath]

/-- C5 at a register-session response with handle 0x1234 on slot 2. -/
theorem encapsulationHandle_registerSession_witness :
    (sampleFrame 0x65 0x1234 []).Command = sampleEnv.CommandRegisterSession ∧
    samplePlc.path = sampleEnv.PortBuild 1 [samplePlc.slot] ∧
    encapsulationHandle sampleEnv samplePlc (sampleFrame 0x65 0x1234 []) (DialResult.conn 8) =
      .ok { samplePlc with
        session := (sampleFrame 0x65 0x1234 []).SessionHandle
        events := samplePlc.events ++
          (if samplePlc.config.OnRegistered then [Event.OnRegistered] else []) ++
          [Event.send (sampleEnv.SendRRData samplePlc.context
            (sampleFrame 0x65 0x1234 []).SessionHandle 10
            (sampleEnv.unconnectedSendBuild
              (sampleEnv.messageRouterBuild sampleEnv.ServiceGetAttributeAll
                [sampleEnv.LogicalBuild sampleEnv.LogicalTypeClassID 0x01 true,
                 sampleEnv.LogicalBuild sampleEnv.LogicalTypeInstanceID 0x01 true] [])
              (sampleEnv.PortBuild 1 [samplePlc.slot]) 2000))] } :=
  ⟨by decide, by decide,
    encapsulationHandle_registerSession sampleEnv samplePlc (sampleFrame 0x65 0x1234 [])
      (DialResult.conn 8) (by decide) (by decide)⟩

/-- C6: a frame whose command is none of register-session, unregister-session
and send-RR-data is dropped: `encapsulationHandle` returns normally with the
whole engine state, the recorded events included, as it was. -/
theorem encapsulationHandle_other_command (env : Env) (p : plc) (enc : Encapsulation)
    (net : DialResult)
    (h1 : enc.Command ≠ env.CommandRegisterSession)
    (h2 : enc.Command ≠ env.CommandUnRegisterSession)
    (h3 : enc.Command ≠ env.CommandSendRRData) :
    encapsulationHandle env p enc net = .ok p := by
  simp [encapsulationHandle, h1, h2, h3]

/-- C6 at a list-identity frame (command 0x63). -/
theorem encapsulationHandle_other_command_witness :
    (sampleFrame 0x63 0 [1, 2, 3]).Command ≠ sampleEnv.CommandRegisterSession ∧
    (sampleFrame 0x63 0 [1, 2, 3]).Command ≠ sampleEnv.CommandUnRegisterSession ∧
    (sampleFrame 0x63 0 [1, 2, 3]).Command ≠ sampleEnv.CommandSendRRData ∧
    encapsulationHandle sampleEnv samplePlc (sampleFrame 0x63 0 [1, 2, 3]) (DialResult.conn 8) =
      .ok samplePlc :=
  ⟨by decide, by decide, by decide,
    encapsulationHandle_other_command sampleEnv samplePlc (sampleFrame 0x63 0 [1, 2, 3])
      (DialResult.conn 8) (by decide) (by decide) (by decide)⟩

/-- C7 (as stated) fails: after `disconnected` with reconnection disabled the
socket is closed but the session handle is still 0x1234, both when
`disconnected` is called on a read error and when an unregister-session frame
arrives. -/
theorem teardown_keeps_session_counterexample :
    samplePlc.config.ReconnectionInterval = 0 ∧ samplePlc.session = 0x1234 ∧
    disconnected sampleEnv samplePlc GoError.EOF (DialResult.conn 8) =
      .ok { samplePlc with
        tcpConn := none
        events := [Event.OnDisconnected GoError.EOF, Event.Close 7] } ∧
    (disconnected sampleEnv samplePlc GoError.EOF (DialResult.conn 8)).state.session ≠ 0 ∧
    (read sampleEnv (DialResult.conn 8) samplePlc [ReadResult.err GoError.EOF]).state.session ≠ 0 ∧
    (encapsulationHandle sampleEnv samplePlc (sampleFrame 0x66 0x1234 [])
      (DialResult.conn 8)).state.session ≠ 0 := by
  decide

/-- C7 (amended): when the session is torn down through `disconnected` with a
socket open and reconnection disabled - called directly, from `read` on a
transport error, from `read` on a frame-decoder error after the frames of the
chunk were handled, or on an unregister-session frame - the call returns, the
socket is closed (`tcpConn` is nil) afterwards and the session handle is left
as it was. -/
theorem teardown_closes_socket_keeps_session (env : Env) (p : plc) (err : GoError)
    (net : DialResult) (c : Nat)
    (hconn : p.tcpConn = some c) (hzero : p.config.ReconnectionInterval = 0) :
    ((disconnected env p err net).returned = true ∧
      (disconnected env p err net).state.tcpConn = none ∧
      (disconnected env p err net).state.session = p.session) ∧
    (∀ rds,
      (read env net p (ReadResult.err err :: rds)).returned = true ∧
      (read env net p (ReadResult.err err :: rds)).state.tcpConn = none ∧
      (read env net p (ReadResult.err err :: rds)).state.session = p.session) ∧
    (∀ frames rds q k, handleFrames env net p frames = .ok q → q.tcpConn = some k →
      (read env net p (ReadResult.chunk frames (some err) :: rds)).returned = true ∧
      (read env net p (ReadResult.chunk frames (some err) :: rds)).state.tcpConn = none ∧
      (read env net p (ReadResult.chunk frames (some err) :: rds)).state.session = q.session) ∧
    (∀ enc, enc.Command = env.CommandUnRegisterSession →
      enc.Command ≠ env.CommandRegisterSession →
      (encapsulationHandle env p enc net).returned = true ∧
      (encapsulationHandle env p enc net).state.tcpConn = none ∧
      (encapsulationHandle env p enc net).state.session = p.session) := by
  have hd : ∀ (q : plc) (k : Nat) (e : GoError), q.tcpConn = some k →
      q.config.ReconnectionInterval = 0 →
      (disconnected env q e net).returned = true ∧
      (disconnected env q e net).state.tcpConn = none ∧
      (disconnected env q e net).state.session = q.session := by
    intro q k e hq hz
    rw [disconnected_open_zero env q e net k hq hz]
    simp [Outcome.returned, Outcome.state]
  refine ⟨hd p c err hconn hzero, ?_, ?_, ?_⟩
  · intro rds
    have : read env net p (ReadResult.err err :: rds) = disconnected env p err net := by
      simp [read, hconn]
    rw [this]
    exact hd p c err hconn hzero
  · intro frames rds q k hq hk
    have hread : read env net p (ReadResult.chunk frames (some err) :: rds) =
        disconnected env q err net := by
      simp [read, hconn, hq]
    have hsame := handleFrames_sameSetup env net frames p
    rw [hq] at hsame
    have hz : q.config.ReconnectionInterval = 0 := by
      have : q.config = p.config := hsame.2.2.1
      rw [this]
      exact hzero
    rw [hread]
    exact hd q k err hk hz
  · intro enc h1 h2
    have h3 : ¬ env.CommandUnRegisterSession = env.CommandRegisterSession := by
      rw [← h1]
      exact h2
    have : encapsulationHandle env p enc net =
        disconnected env p (GoError.errorsNew UnRegisterSessionText) net := by
      simp [encapsulationHandle, h1, h3]
    rw [this]
    exact hd p c _ hconn hzero

/-- The amended C7 at `samplePlc` and an end-of-file read error. -/
theorem teardown_closes_socket_keeps_session_witness :
    samplePlc.tcpConn = some 7 ∧ samplePlc.config.ReconnectionInterval = 0 ∧
    ((disconnected sampleEnv samplePlc GoError.EOF (DialResult.conn 8)).returned = true ∧
      (disconnected sampleEnv samplePlc GoError.EOF (DialResult.conn 8)).state.tcpConn = none ∧
      (disconnected sampleEnv samplePlc GoError.EOF (DialResult.conn 8)).state.session =
        samplePlc.session) ∧
    (∀ rds,
      (read sampleEnv (DialResult.conn 8) samplePlc
        (ReadResult.err GoError.EOF :: rds)).returned = true ∧
      (read sampleEnv (DialResult.conn 8) samplePlc
        (ReadResult.err GoError.EOF :: rds)).state.tcpConn = none ∧
      (read sampleEnv (DialResult.conn 8) samplePlc
        (ReadResult.err GoError.EOF :: rds)).state.session = samplePlc.session) ∧
    (∀ frames rds q k, handleFrames sampleEnv (DialResult.conn 8) samplePlc frames = .ok q →
      q.tcpConn = some k →
      (read sampleEnv (DialResult.conn 8) samplePlc
        (ReadResult.chunk frames (some GoError.EOF) :: rds)).returned = true ∧
      (read sampleEnv (DialResult.conn 8) samplePlc
        (ReadResult.chunk frames (some GoError.EOF) :: rds)).state.tcpConn = none ∧
      (read sampleEnv (DialResult.conn 8) samplePlc
        (ReadResult.chunk frames (some GoError.EOF) :: rds)).state.session = q.session) ∧
    (∀ enc, enc.Command = sampleEnv.CommandUnRegisterSession →
      enc.Command ≠ sampleEnv.CommandRegisterSession →
      (encapsulationHandle sampleEnv samplePlc enc (DialResult.conn 8)).returned = true ∧
      (encapsulationHandle sampleEnv samplePlc enc (DialResult.conn 8)).state.tcpConn = none ∧
      (encapsulationHandle sampleEnv samplePlc enc (DialResult.conn 8)).state.session =
        samplePlc.session) :=
  ⟨by decide, by decide,
    teardown_closes_socket_keeps_session sampleEnv samplePlc GoError.EOF (DialResult.conn 8) 7
      (by decide) (by decide)⟩

/-- C8 (as stated) fails: a response with general status 0 and service code
0x8E, which is not 0x81, is not treated as an error: `sendRRDataHandle`
returns with the engine as it was, socket open and no callback called. -/
theorem service_mismatch_ignored_counterexample :
    (sampleEnv.messageRouterParse [0x8E, 0, 0, 0, 1, 2]).GeneralStatus = 0 ∧
    (sampleEnv.messageRouterParse [0x8E, 0, 0, 0, 1, 2]).Service = 0x8E ∧
    sampleEnv.ServiceGetAttributeAll = 0x01 ∧
    sendRRDataHandle sampleEnv samplePlc sampleOtherService (DialResult.conn 8) = .ok samplePlc ∧
    (sendRRDataHandle sampleEnv samplePlc sampleOtherService (DialResult.conn 8)).state.tcpConn =
      some 7 ∧
    (sendRRDataHandle sampleEnv samplePlc sampleOtherService (DialResult.conn 8)).state.events =
      [] := by
  decide

/-- C8 (amended): a send-RR-data response with general status 0 whose service
code is not the Get-Attribute-All code plus 0x80 (as a byte) is ignored:
`sendRRDataHandle` returns normally with the whole engine state as it was, so
it neither disconnects nor calls a callback. -/
theorem sendRRDataHandle_other_service_ignored (env : Env) (p : plc) (cpf : CPF)
    (item : CPFItem) (net : DialResult)
    (hitem : cpf.Items[1]? = some item)
    (hstatus : (env.messageRouterParse item.Data).GeneralStatus = 0)
    (hservice : (env.messageRouterParse item.Data).Service.val ≠
      (env.ServiceGetAttributeAll.val + 0x80) % 256) :
    sendRRDataHandle env p cpf net = .ok p := by
  have h1 := (env.messageRouterParse item.Data).Service.isLt
  have h2 := env.ServiceGetAttributeAll.isLt
  have h3 : ¬ ((env.messageRouterParse item.Data).Service.val + 128) % 256 =
      env.ServiceGetAttributeAll.val := by
    omega
  simp [sendRRDataHandle, hitem, hstatus, h3]

/-- The amended C8 at `sampleOtherService`. -/
theorem sendRRDataHandle_other_service_ignored_witness :
    sampleOtherService.Items[1]? =
      some { TypeID := 0xB2, Length := 6, Data := [0x8E, 0, 0, 0, 1, 2] } ∧
    (sampleEnv.messageRouterParse [0x8E, 0, 0, 0, 1, 2]).GeneralStatus = 0 ∧
    (sampleEnv.messageRouterParse [0x8E, 0, 0, 0, 1, 2]).Service.val ≠
      (sampleEnv.ServiceGetAttributeAll.val + 0x80) % 256 ∧
    sendRRDataHandle sampleEnv samplePlc sampleOtherService (DialResult.conn 8) = .ok samplePlc :=
  ⟨by decide, by decide, by decide,
    sendRRDataHandle_other_service_ignored sampleEnv samplePlc sampleOtherService
      { TypeID := 0xB2, Length := 6, Data := [0x8E, 0, 0, 0, 1, 2] } (DialResult.conn 8)
      (by decide) (by decide) (by decide)⟩

/-- C9: with a socket open, `disconnected err` first calls the on-disconnected
callback with `err` (when it is set) and closes the socket; it then dials
again, once, if and only if `ReconnectionInterval` is non-zero; with a zero
interval it returns and leaves `tcpConn` nil. -/
theorem disconnected_reconnects_iff_interval (env : Env) (p : plc) (err : GoError)
    (net : DialResult) (c : Nat) (hconn : p.tcpConn = some c) :
    (∃ more, (disconnected env p err net).state.events =
        p.events ++ (if p.config.OnDisconnected then [Event.OnDisconnected err] else []) ++
          [Event.Close c] ++ more ∧
      (Event.DialTCP ∈ more ↔ p.config.ReconnectionInterval ≠ 0) ∧
      more.count Event.DialTCP ≤ 1) ∧
    (p.config.ReconnectionInterval = 0 →
      (disconnected env p err net).returned = true ∧
      (disconnected env p err net).state.tcpConn = none ∧
      (disconnected env p err net).state.events =
        p.events ++ (if p.config.OnDisconnected then [Event.OnDisconnected err] else []) ++
          [Event.Close c]) := by
  constructor
  · obtain ⟨more, h1, _, h3, _⟩ := disconnected_open_events env p err net c hconn
    refine ⟨more, h1, ?_, ?_⟩
    · by_cases hz : p.config.ReconnectionInterval = 0
      · simp only [hz, if_true] at h3
        simp only [hz, ne_eq, not_true_eq_false, iff_false]
        exact List.count_eq_zero.mp h3
      · simp only [hz, if_false] at h3
        simp only [ne_eq, hz, not_false_eq_true, iff_true]
        exact List.count_pos_iff.mp (by omega)
    · split at h3 <;> omega
  · intro hz
    rw [disconnected_open_zero env p err net c hconn hz]
    simp [Outcome.returned, Outcome.state]

/-- C9 at `samplePlc`, whose reconnection interval is zero. -/
theorem disconnected_reconnects_iff_interval_witness :
    samplePlc.tcpConn = some 7 ∧
    (∃ more, (disconnected sampleEnv samplePlc GoError.EOF (DialResult.conn 8)).state.events =
        samplePlc.events ++
          (if samplePlc.config.OnDisconnected then [Event.OnDisconnected GoError.EOF] else []) ++
          [Event.Close 7] ++ more ∧
      (Event.DialTCP ∈ more ↔ samplePlc.config.ReconnectionInterval ≠ 0) ∧
      more.count Event.DialTCP ≤ 1) ∧
    (samplePlc.config.ReconnectionInterval = 0 →
      (disconnected sampleEnv samplePlc GoError.EOF (DialResult.conn 8)).returned = true ∧
      (disconnected sampleEnv samplePlc GoError.EOF (DialResult.conn 8)).state.tcpConn = none ∧
      (disconnected sampleEnv samplePlc GoError.EOF (DialResult.conn 8)).state.events =
        samplePlc.events ++
          (if samplePlc.config.OnDisconnected then [Event.OnDisconnected GoError.EOF] else []) ++
          [Event.Close 7]) :=
  ⟨by decide,
    disconnected_reconnects_iff_interval sampleEnv samplePlc GoError.EOF (DialResult.conn 8) 7
      (by decide)⟩

/-- C10 fails on the code: a send-RR-data frame whose container holds no item
(payload `00 00`), and a container with a single item, make `cpf.Items[1]`
panic with an index out of range; nothing is dispatched and `disconnected` is
not called. -/
theorem sendRRDataHandle_index_out_of_range :
    sampleEnv.cipParser [0, 0] = { Items := [] } ∧
    encapsulationHandle sampleEnv samplePlc (sampleFrame 0x6F 0x1234 [0, 0]) (DialResult.conn 8) =
      .panic .indexOutOfRange samplePlc ∧
    sendRRDataHandle sampleEnv samplePlc { Items := [] } (DialResult.conn 8) =
      .panic .indexOutOfRange samplePlc ∧
    sendRRDataHandle sampleEnv samplePlc
        { Items := [{ TypeID := 0xB2, Length := 4, Data := [0x81, 0, 0, 0] }] } (DialResult.conn 8) =
      .panic .indexOutOfRange samplePlc := by
  decide

end Goplc
